import Mathlib

/-!
Verification of the lead-intake and lead-lifecycle pipeline of the
`digital_profile` backend.

The definitions below are a shallow embedding of the Python sources:
* `backend/app/utils/validation.py` (honeypot, email, phone and request
  validation),
* `backend/app/schemas/cv_request.py` (the pydantic `CVRequest` schema and
  its per-field validators, which run at deserialization time and whose
  failures the web framework reports as HTTP 422),
* `backend/app/api/endpoints/cv_request.py` (the `/request-cv` handler and
  the `/cv-status/{request_id}` handler),
* `backend/app/api/endpoints/admin.py` (lead listing and partial update),
* `backend/app/services/lead_service.py` (lead store operations),
* `backend/app/services/email_service.py` (the email dispatcher boundary).

Machine strings are `String`, timestamps are `Nat` ticks, the database is a
`List Lead`, and the SMTP transport and the pydantic `EmailStr` check are
external collaborators modelled as explicit parameters.
-/

/-! ### Basic string helpers mirroring Python primitives -/

/-- The characters Python's `str.strip()` removes (ASCII whitespace). -/
def isPyWhitespace (c : Char) : Bool :=
  c = ' ' || c = '\t' || c = '\n' || c = '\r' || c = '\x0b' || c = '\x0c'

/-- Python `str.strip()` on a character list. -/
def pyStripList (l : List Char) : List Char :=
  ((l.dropWhile isPyWhitespace).reverse.dropWhile isPyWhitespace).reverse

/-- Python `str.strip()`. -/
def pyStrip (s : String) : String := ⟨pyStripList s.data⟩

/-- ASCII lower-casing of one character (how `re.IGNORECASE` compares ASCII). -/
def asciiLower (c : Char) : Char :=
  if c.toNat ≥ 65 ∧ c.toNat ≤ 90 then Char.ofNat (c.toNat + 32) else c

/-- Does the text begin with the pattern? -/
def listStartsWith : List Char → List Char → Bool
  | _, [] => true
  | [], _ :: _ => false
  | t :: ts, p :: ps => t = p && listStartsWith ts ps

/-- Does the pattern occur anywhere in the text (Python `re.search` of a
literal pattern)? -/
def containsSub (t pat : List Char) : Bool :=
  (List.range (t.length + 1)).any fun i => listStartsWith (t.drop i) pat

/-! ### `validation.py`: field-level validators -/

/-- `validate_honeypot` from `validation.py`: the hidden field is valid
exactly when it is empty. -/
def validate_honeypot (honeypot_value : String) : Bool :=
  honeypot_value = ""

/-- Character class `[a-zA-Z0-9._%+-]` of the email regex. -/
def emailLocalChar (c : Char) : Bool :=
  c.isAlpha || c.isDigit || c = '.' || c = '_' || c = '%' || c = '+' || c = '-'

/-- Character class `[a-zA-Z0-9.-]` of the email regex. -/
def emailDomainChar (c : Char) : Bool :=
  c.isAlpha || c.isDigit || c = '.' || c = '-'

/-- Matchability of the suffix `[a-zA-Z0-9.-]+\.[a-zA-Z]{2,}` against the
whole list: some dot splits it into a nonempty domain part and an
alphabetic top-level domain of length at least two. -/
def emailDomainMatch (l : List Char) : Bool :=
  (List.range l.length).any fun j =>
    decide (l.get? j = some '.') && decide (1 ≤ j) &&
    (l.take j).all emailDomainChar &&
    (decide (2 ≤ (l.drop (j + 1)).length) && (l.drop (j + 1)).all Char.isAlpha)

/-- `validate_email_format` from `validation.py`: full match of
`^[a-zA-Z0-9._%+-]+@[a-zA-Z0-9.-]+\.[a-zA-Z]{2,}$`. -/
def validate_email_format (email : String) : Bool :=
  let l := email.data
  (List.range l.length).any fun i =>
    decide (l.get? i = some '@') && decide (1 ≤ i) &&
    (l.take i).all emailLocalChar && emailDomainMatch (l.drop (i + 1))

/-- The characters kept by `re.sub(r'[^\d+]', '', phone)`. -/
def phoneKeepChar (c : Char) : Bool := c.isDigit || c = '+'

/-- The cleaning step of `validate_phone_format`: strip every character that
is neither a digit nor `+`. -/
def cleanPhone (s : String) : String := ⟨s.data.filter phoneKeepChar⟩

/-- Strip one optional leading `+`. -/
def dropOptPlus : List Char → List Char
  | '+' :: rest => rest
  | l => l

/-- Full match of `^(\+?\d{10,15})$`: an optional leading `+` followed by 10
to 15 digits. -/
def phoneRegexMatch (s : String) : Bool :=
  let digits := dropOptPlus s.data
  digits.all Char.isDigit && decide (10 ≤ digits.length) && decide (digits.length ≤ 15)

/-- `validate_phone_format` from `validation.py`: clean the input, reject if
the cleaned string's length (which counts `+` characters as well as digits)
is outside `[10, 15]`, then require the regex to match. -/
def validate_phone_format (phone : String) : Bool :=
  let cleaned := cleanPhone phone
  if cleaned.length < 10 || cleaned.length > 15 then false
  else phoneRegexMatch cleaned

/-! ### The spam pattern scan of `validate_request_data` -/

/-- No newline among the characters (`.` in a Python regex without
`re.DOTALL` does not match a newline). -/
def noNewline (l : List Char) : Bool := l.all fun c => decide (c ≠ '\n')

/-- Matchability of `openTag.*?>.*?closeTag` somewhere in the text: an
occurrence of the opening literal, then a `>` with no intervening newline,
then the closing literal with no intervening newline. -/
def tagMatch (openTag closeTag : List Char) (t : List Char) : Bool :=
  (List.range (t.length + 1)).any fun i =>
    listStartsWith (t.drop i) openTag &&
    (let r := (t.drop i).drop openTag.length
     (List.range (r.length + 1)).any fun j =>
       noNewline (r.take j) && decide (r.get? j = some '>') &&
       (let u := r.drop (j + 1)
        (List.range (u.length + 1)).any fun k =>
          noNewline (u.take k) && listStartsWith (u.drop k) closeTag))

/-- Lower-cased character list of a string. -/
def lowerData (s : String) : List Char := s.data.map asciiLower

/-- The case-insensitive blocklist scan of `validate_request_data`:
`<script.*?>.*?</script>`, `javascript:`, `data:text/html`,
`<iframe.*?>.*?</iframe>`. -/
def spamScan (text : String) : Bool :=
  let t := lowerData text
  tagMatch "<script".data "</script>".data t ||
  containsSub t "javascript:".data ||
  containsSub t "data:text/html".data ||
  tagMatch "<iframe".data "</iframe>".data t

/-! ### Data model -/

/-- Lifecycle states of a lead (`models/leads.py`). -/
inductive LeadStatus
  | new | contacted | qualified | proposal_sent | closed_won | closed_lost
deriving DecidableEq

/-- Acquisition channels of a lead (`models/leads.py`). -/
inductive LeadSource
  | cv_request | calendly | linkedin | referral | direct | other
deriving DecidableEq

/-- One row of the `leads` table. -/
structure Lead where
  id : String
  name : String
  email : String
  phone : String
  company : Option String := none
  role : Option String := none
  purpose : Option String := none
  source : LeadSource := LeadSource.cv_request
  ip_address : Option String := none
  user_agent : Option String := none
  consent_given : Bool := false
  consent_timestamp : Option Nat := none
  status : LeadStatus := LeadStatus.new
  notes : Option String := none
  created_at : Nat
  updated_at : Nat
deriving DecidableEq

/-- The parsed `CVRequest` pydantic model (`schemas/cv_request.py`), i.e.
the value the handler sees after the schema's validators have run. -/
structure CVRequest where
  name : String
  email : String
  phone : String
  company : Option String := none
  role : Option String := none
  purpose : Option String := none
  consent : Bool
  website : String := ""
deriving DecidableEq

/-- The raw JSON body of a `/request-cv` submission, before the schema's
per-field validators run. -/
structure RawCVRequest where
  name : String
  email : String
  phone : String
  company : Option String := none
  role : Option String := none
  purpose : Option String := none
  consent : Bool
  website : String := ""
deriving DecidableEq

/-! ### The pydantic schema validators (`schemas/cv_request.py`) -/

/-- Errors of the schema's `validate_name`. -/
def nameFieldErrors (v : String) : List String :=
  if v = "" ∨ (pyStrip v).length < 2 then ["Name must be at least 2 characters long"] else []

/-- Errors of pydantic's `EmailStr` type check; the check itself is library
code outside this repository, so it is passed in as an oracle. -/
def emailFieldErrors (emailOk : String → Bool) (v : String) : List String :=
  if emailOk v then [] else ["value is not a valid email address"]

/-- Errors of the schema's `validate_phone`. -/
def phoneFieldErrors (v : String) : List String :=
  if v = "" ∨ (pyStrip v).length < 10 then ["Phone number must be at least 10 characters long"] else []

/-- Errors of the schema's `validate_purpose`. -/
def purposeFieldErrors (v : Option String) : List String :=
  if 500 < (v.getD "").length then ["Purpose must be less than 500 characters"] else []

/-- Errors of the schema's `validate_consent`. -/
def consentFieldErrors (v : Bool) : List String :=
  if v then [] else ["Consent is required"]

/-- Deserialization of a raw body into a `CVRequest`: pydantic runs every
field validator, collects the errors in field order, and on success keeps
the validators' return values (`name` and `phone` come back
whitespace-stripped). A failure is reported by the web framework as an
HTTP 422 response carrying the error messages. -/
def parseCVRequest (emailOk : String → Bool) (raw : RawCVRequest) :
    Except (List String) CVRequest :=
  let errs := nameFieldErrors raw.name ++ emailFieldErrors emailOk raw.email ++
    phoneFieldErrors raw.phone ++ purposeFieldErrors raw.purpose ++
    consentFieldErrors raw.consent
  if errs = [] then
    Except.ok { name := pyStrip raw.name, email := raw.email, phone := pyStrip raw.phone,
                company := raw.company, role := raw.role, purpose := raw.purpose,
                consent := raw.consent, website := raw.website }
  else Except.error errs

/-! ### `validate_request_data` and the in-handler validation sequence -/

/-- The concatenation
`f"{name} {email} {phone} {company or ''} {role or ''} {purpose or ''}"`
scanned for suspicious patterns. -/
def allText (r : CVRequest) : String :=
  r.name ++ " " ++ r.email ++ " " ++ r.phone ++ " " ++ (r.company.getD "") ++ " " ++
    (r.role.getD "") ++ " " ++ (r.purpose.getD "")

/-- `validate_request_data` from `validation.py`: the detail string of the
first `HTTPException` raised, or `none` when every check passes. -/
def validate_request_data (r : CVRequest) : Option String :=
  if r.name = "" ∨ (pyStrip r.name).length < 2 then
    some "Name must be at least 2 characters long"
  else if r.email = "" then some "Email is required"
  else if validate_email_format r.email = false then some "Invalid email format"
  else if r.phone = "" then some "Phone number is required"
  else if validate_phone_format r.phone = false then some "Invalid phone number format"
  else if 500 < (r.purpose.getD "").length then
    some "Purpose must be less than 500 characters"
  else if spamScan (allText r) then some "Invalid characters detected"
  else none

/-- The validation sequence the `/request-cv` handler runs on a parsed
request: honeypot gate, then `validate_request_data`, then the consent
check; the result is the detail of the first 400 error, or `none`. -/
def intakeValidation (r : CVRequest) : Option String :=
  if validate_honeypot r.website = false then some "Invalid request"
  else
    match validate_request_data r with
    | some detail => some detail
    | none => if r.consent = false then some "Consent is required" else none

/-- The handler's checks, as an explicit ordered list (the order the code
actually runs them in). -/
def intakeChecks : List (CVRequest → Option String) :=
  [fun r => if validate_honeypot r.website = false then some "Invalid request" else none,
   fun r => if r.name = "" ∨ (pyStrip r.name).length < 2 then
      some "Name must be at least 2 characters long" else none,
   fun r => if r.email = "" then some "Email is required" else none,
   fun r => if validate_email_format r.email = false then some "Invalid email format" else none,
   fun r => if r.phone = "" then some "Phone number is required" else none,
   fun r => if validate_phone_format r.phone = false then
      some "Invalid phone number format" else none,
   fun r => if 500 < (r.purpose.getD "").length then
      some "Purpose must be less than 500 characters" else none,
   fun r => if spamScan (allText r) then some "Invalid characters detected" else none,
   fun r => if r.consent = false then some "Consent is required" else none]

/-- The first failing check of the ordered list. -/
def firstFailure (r : CVRequest) : Option String :=
  (intakeChecks.filterMap fun c => c r).head?

/-! ### The email dispatcher boundary (`email_service.py`) -/

/-- The body of the `try` block of `_send_email`: build the message and hand
it to the SMTP transport, whose outcome is the external parameter; a
transport failure propagates as an exception. -/
def sendEmailBody (transport : Except String Unit) : Except String Bool := do
  let _ ← transport
  return true

/-- `_send_email`: run the body under a catch-all `except` clause that turns
every exception into the boolean result `false`. -/
def _send_email (transport : Except String Unit) : Bool :=
  match sendEmailBody transport with
  | Except.ok b => b
  | Except.error _ => false

/-- `send_cv_email`: renders the templates and delegates to `_send_email`;
its boolean result is the dispatcher's success flag. -/
def send_cv_email (transport : Except String Unit) : Bool :=
  _send_email transport

/-! ### The `/request-cv` intake pipeline (`cv_request.py`) -/

/-- The observable outcome of one `/request-cv` submission: HTTP status,
reported detail messages, the database after the request, and which side
effects ran. -/
structure PipelineOutcome where
  status : Nat
  details : List String
  db : List Lead
  request_id : Option String := none
  emailAttempted : Bool := false
  emailSent : Bool := false
deriving DecidableEq

/-- The lead record the handler builds and persists on the success path. -/
def mkLead (req : CVRequest) (newId clientIp userAgent : String) (now : Nat) : Lead :=
  { id := newId, name := req.name, email := req.email, phone := req.phone,
    company := req.company, role := req.role, purpose := req.purpose,
    source := LeadSource.cv_request, ip_address := some clientIp,
    user_agent := some userAgent, consent_given := true, consent_timestamp := some now,
    status := LeadStatus.new, notes := none, created_at := now, updated_at := now }

/-- The `/request-cv` handler on an already-parsed request: honeypot gate,
`validate_request_data`, consent check, then persist the lead and attempt
the CV email; an email failure is logged and ignored. -/
def request_cv (db : List Lead) (req : CVRequest) (clientIp userAgent newId : String)
    (now : Nat) (transport : Except String Unit) : PipelineOutcome :=
  if validate_honeypot req.website = false then
    { status := 400, details := ["Invalid request"], db := db }
  else
    match validate_request_data req with
    | some detail => { status := 400, details := [detail], db := db }
    | none =>
      if req.consent = false then
        { status := 400, details := ["Consent is required"], db := db }
      else
        let lead := mkLead req newId clientIp userAgent now
        let sent := send_cv_email transport
        { status := 200,
          details := ["CV request processed successfully. You should receive the CV via email shortly."],
          db := db ++ [lead], request_id := some newId,
          emailAttempted := true, emailSent := sent }

/-- The full `/request-cv` pipeline: deserialize the raw body through the
pydantic schema (failures become an HTTP 422 with the collected messages),
then run the handler. -/
def handleRequestCV (emailOk : String → Bool) (db : List Lead) (raw : RawCVRequest)
    (clientIp userAgent newId : String) (now : Nat) (transport : Except String Unit) :
    PipelineOutcome :=
  match parseCVRequest emailOk raw with
  | Except.error errs => { status := 422, details := errs, db := db }
  | Except.ok req => request_cv db req clientIp userAgent newId now transport

/-! ### Lead store reads and the status endpoint -/

/-- `get_lead_by_id` from `lead_service.py`: first row whose id matches. -/
def getLeadById (db : List Lead) (lead_id : String) : Option Lead :=
  db.find? fun l => decide (l.id = lead_id)

/-- The body of the `/cv-status/{request_id}` 200 response. -/
structure CVStatusResponse where
  request_id : String
  status : LeadStatus
  created_at : Nat
  email_sent : Bool
deriving DecidableEq

/-- `get_cv_request_status` from `cv_request.py`: 404 when the id is
unknown, otherwise a response whose `email_sent` field is the literal
`true`. -/
def get_cv_request_status (db : List Lead) (request_id : String) :
    Except Nat CVStatusResponse :=
  match getLeadById db request_id with
  | none => Except.error 404
  | some lead =>
    Except.ok { request_id := request_id, status := lead.status,
                created_at := lead.created_at, email_sent := true }

/-! ### Admin partial update (`admin.py` `update_lead`) -/

/-- The `LeadUpdate` schema: every field optional. -/
structure LeadUpdate where
  name : Option String := none
  email : Option String := none
  phone : Option String := none
  company : Option String := none
  role : Option String := none
  purpose : Option String := none
  status : Option LeadStatus := none
  notes : Option String := none
deriving DecidableEq

/-- Is the partial payload empty (no `update_fields` collected)? -/
def LeadUpdate.isEmpty (u : LeadUpdate) : Bool :=
  u.name.isNone && u.email.isNone && u.phone.isNone && u.company.isNone &&
  u.role.isNone && u.purpose.isNone && u.status.isNone && u.notes.isNone

/-- Apply the provided fields of a partial update to one row and refresh
`updated_at` (the `SET ..., updated_at = CURRENT_TIMESTAMP` of the built
query). -/
def applyLeadUpdate (u : LeadUpdate) (now : Nat) (l : Lead) : Lead :=
  { l with
    name := u.name.getD l.name,
    email := u.email.getD l.email,
    phone := u.phone.getD l.phone,
    company := match u.company with | some c => some c | none => l.company,
    role := match u.role with | some c => some c | none => l.role,
    purpose := match u.purpose with | some c => some c | none => l.purpose,
    status := u.status.getD l.status,
    notes := match u.notes with | some c => some c | none => l.notes,
    updated_at := now }

/-- Success body of the admin endpoints. -/
structure ResponseMessage where
  success : Bool
  message : String
deriving DecidableEq

/-- `update_lead` from `admin.py`: 404 when the lead is missing; a "no
changes" success that touches nothing when the partial payload is empty;
otherwise a dynamic `UPDATE` of the provided fields that also refreshes
`updated_at`. Returns the response together with the database afterwards. -/
def update_lead (db : List Lead) (lead_id : String) (u : LeadUpdate) (now : Nat) :
    Except Nat ResponseMessage × List Lead :=
  match getLeadById db lead_id with
  | none => (Except.error 404, db)
  | some _ =>
    if u.isEmpty then (Except.ok ⟨true, "No changes to update"⟩, db)
    else
      (Except.ok ⟨true, "Lead updated successfully"⟩,
       db.map fun l => if l.id = lead_id then applyLeadUpdate u now l else l)

/-! ### Lead listing and pagination (`lead_service.py` `get_leads`,
`admin.py` `get_leads`) -/

/-- Does a row satisfy the optional status and source filters? -/
def leadMatchesFilters (sF : Option LeadStatus) (srcF : Option LeadSource) (l : Lead) : Bool :=
  (match sF with | some s => decide (l.status = s) | none => true) &&
  (match srcF with | some s => decide (l.source = s) | none => true)

/-- `created_at` descending, the listing's `ORDER BY`. -/
def createdDescRel (a b : Lead) : Prop := b.created_at ≤ a.created_at

instance : DecidableRel createdDescRel := fun a b => Nat.decLe b.created_at a.created_at

instance : IsTotal Lead createdDescRel :=
  ⟨fun a b => (Nat.le_total b.created_at a.created_at)⟩

instance : IsTrans Lead createdDescRel :=
  ⟨fun _ _ _ hab hbc => Nat.le_trans hbc hab⟩

/-- Sort rows by `created_at` descending. -/
def sortLeadsDesc (l : List Lead) : List Lead := List.insertionSort createdDescRel l

/-- The rows the listing query ranges over: filtered, newest first. -/
def filteredSorted (db : List Lead) (sF : Option LeadStatus) (srcF : Option LeadSource) :
    List Lead :=
  sortLeadsDesc (db.filter (leadMatchesFilters sF srcF))

/-- The listing result: rows of the page, total count, and the computed
page number, page size and page count. -/
structure LeadPage where
  leads : List Lead
  total : Nat
  page : Nat
  size : Nat
  pages : Nat
deriving DecidableEq

/-- The arithmetic and slicing of `LeadService.get_leads` once `skip` and
`limit` are known non-negative with `limit` nonzero: `LIMIT/OFFSET`
slicing, `page = skip // limit + 1`, `pages = (total + limit - 1) // limit`. -/
def getLeadsCore (db : List Lead) (skip limit : Nat) (sF : Option LeadStatus)
    (srcF : Option LeadSource) : LeadPage :=
  let fs := filteredSorted db sF srcF
  { leads := (fs.drop skip).take limit,
    total := fs.length,
    page := skip / limit + 1,
    size := limit,
    pages := (fs.length + limit - 1) / limit }

/-- Errors `LeadService.get_leads` can raise: the database rejects a
negative `LIMIT`/`OFFSET`, and Python's `//` raises `ZeroDivisionError`
when `limit` is zero. -/
inductive PyError
  | zeroDivision
  | storageError
deriving DecidableEq

/-- `LeadService.get_leads`: the queries run first (failing on negative
`skip`/`limit`), then the `page`/`pages` arithmetic divides by `limit`. -/
def get_leads (db : List Lead) (skip limit : Int) (sF : Option LeadStatus)
    (srcF : Option LeadSource) : Except PyError LeadPage :=
  if skip < 0 ∨ limit < 0 then Except.error PyError.storageError
  else if limit = 0 then Except.error PyError.zeroDivision
  else Except.ok (getLeadsCore db skip.toNat limit.toNat sF srcF)

/-- The admin `GET /leads` endpoint: caps the requested limit at 100 from
above (`min(limit, 100)`) and delegates to the service. -/
def admin_get_leads (db : List Lead) (skip limit : Int) (sF : Option LeadStatus)
    (srcF : Option LeadSource) : Except PyError LeadPage :=
  get_leads db skip (min limit 100) sF srcF

/-! ## Helper lemmas -/

/-- A successful parse returns exactly the raw fields, with `name` and
`phone` whitespace-stripped by the schema validators. -/
theorem parseCVRequest_ok_fields {emailOk : String → Bool} {raw : RawCVRequest}
    {req : CVRequest} (h : parseCVRequest emailOk raw = Except.ok req) :
    req = { name := pyStrip raw.name, email := raw.email, phone := pyStrip raw.phone,
            company := raw.company, role := raw.role, purpose := raw.purpose,
            consent := raw.consent, website := raw.website } := by
  simp only [parseCVRequest] at h
  split_ifs at h
  cases h
  rfl

/-- A successful parse leaves the honeypot field untouched. -/
theorem parseCVRequest_ok_website {emailOk : String → Bool} {raw : RawCVRequest}
    {req : CVRequest} (h : parseCVRequest emailOk raw = Except.ok req) :
    req.website = raw.website := by
  rw [parseCVRequest_ok_fields h]

/-- If `validate_request_data` raises nothing, the phone passed its format
check. -/
theorem validate_request_data_none_phone {r : CVRequest}
    (h : validate_request_data r = none) : validate_phone_format r.phone = true := by
  unfold validate_request_data at h
  split_ifs at h with h1 h2 h3 h4 h5 h6 h7
  cases hb : validate_phone_format r.phone
  · exact absurd hb h5
  · rfl

/-! ## C3: phone validation -/

/-- The phone acceptance rule as the claim words it: after stripping
non-digit, non-`+` characters, accept exactly when the digit count is
within `[10, 15]` and the regex `^\+?\d{10,15}$` matches. -/
def phoneClaimAccepts (phone : String) : Bool :=
  let cleaned := cleanPhone phone
  let digitCount := (cleaned.data.filter Char.isDigit).length
  decide (10 ≤ digitCount) && decide (digitCount ≤ 15) && phoneRegexMatch cleaned

/-- C3 counterexample: on `"+123456789012345"` (a `+` followed by 15
digits) the cleaned string has 15 digits, within `[10,15]`, and matches
`^\+?\d{10,15}$`, so the claim's rule accepts it — but
`validate_phone_format` rejects it, because the length check measures the
whole cleaned string (16 characters, the `+` included), not the digit
count. -/
theorem c3_phone_digit_count_counterexample :
    validate_phone_format "+123456789012345" = false ∧
    phoneClaimAccepts "+123456789012345" = true ∧
    ((cleanPhone "+123456789012345").data.filter Char.isDigit).length = 15 ∧
    phoneRegexMatch (cleanPhone "+123456789012345") = true := by
  decide

/-- C3 amended: phone validation first strips all characters other than
digits and `+`, then fails exactly when the length of the stripped string
(counting any `+` characters, not only digits) is outside `[10, 15]` or
the stripped string does not match `^\+?\d{10,15}$`; in particular `"123"`
is rejected and `"+1-555-0123-4567"` is accepted. -/
theorem c3_phone_validation_amended :
    (∀ phone : String,
      validate_phone_format phone = false ↔
        ((cleanPhone phone).length < 10 ∨ 15 < (cleanPhone phone).length ∨
          phoneRegexMatch (cleanPhone phone) = false)) ∧
    validate_phone_format "123" = false ∧
    validate_phone_format "+1-555-0123-4567" = true := by
  refine ⟨fun phone => ?_, by decide, by decide⟩
  simp only [validate_phone_format]
  by_cases h : (cleanPhone phone).length < 10 ∨ (cleanPhone phone).length > 15
  · have hb : (decide ((cleanPhone phone).length < 10) ||
        decide ((cleanPhone phone).length > 15)) = true := by
      rcases h with h | h <;> simp [h]
    rw [if_pos hb]
    constructor
    · intro _
      rcases h with h | h
      · exact Or.inl h
      · exact Or.inr (Or.inl h)
    · intro _
      rfl
  · push_neg at h
    have hb : (decide ((cleanPhone phone).length < 10) ||
        decide ((cleanPhone phone).length > 15)) = false := by
      simp
      omega
    rw [if_neg (by simp [hb])]
    cases hbm : phoneRegexMatch (cleanPhone phone) with
    | false => simp
    | true =>
      simp
      omega

/-! ## C9: the status endpoint's `email_sent` field -/

/-- C9: whenever the lead record exists, `GET /cv-status/{request_id}`
answers with `email_sent = true` — the field is the literal constant the
handler writes, derived from record existence alone, independent of the
email outcome (which the record does not even store). -/
theorem c9_cv_status_email_sent_constant (db : List Lead) (rid : String) (lead : Lead)
    (h : getLeadById db rid = some lead) :
    get_cv_request_status db rid =
      Except.ok { request_id := rid, status := lead.status,
                  created_at := lead.created_at, email_sent := true } := by
  unfold get_cv_request_status
  rw [h]

/-- A concrete submission whose CV email delivery fails. -/
def c9Raw : RawCVRequest :=
  { name := "Jane Roe", email := "jane@example.com", phone := "+15550123499",
    consent := true, website := "" }

/-- The database after the intake pipeline ran on `c9Raw` with a failing
SMTP transport: the lead is persisted even though no email went out. -/
def c9Db : List Lead :=
  (handleRequestCV (fun _ => true) [] c9Raw "9.9.9.9" "agent" "rid-9" 7
    (Except.error "smtp down")).db

/-- C9 witness: for the lead persisted by a run whose email send failed,
the status endpoint still reports `email_sent = true`. -/
theorem c9_witness :
    get_cv_request_status c9Db "rid-9" =
      Except.ok { request_id := "rid-9", status := LeadStatus.new,
                  created_at := 7, email_sent := true } :=
  c9_cv_status_email_sent_constant c9Db "rid-9"
    { id := "rid-9", name := "Jane Roe", email := "jane@example.com",
      phone := "+15550123499", source := LeadSource.cv_request,
      ip_address := some "9.9.9.9", user_agent := some "agent",
      consent_given := true, consent_timestamp := some 7,
      status := LeadStatus.new, created_at := 7, updated_at := 7 }
    (by decide)

/-! ## C10: division by zero in the listing arithmetic -/

/-- C10: the listing's `page`/`pages` arithmetic divides by `limit`; the
admin endpoint caps `limit` at 100 from above but imposes no lower bound,
so requesting `limit = 0` reaches the `ZeroDivisionError` branch, while
every `limit ≥ 1` (with non-negative `skip`) is well-defined. -/
theorem c10_limit_zero_reaches_division_error (db : List Lead) (sF : Option LeadStatus)
    (srcF : Option LeadSource) (skip : Int) (hskip : 0 ≤ skip) :
    admin_get_leads db skip 0 sF srcF = Except.error PyError.zeroDivision ∧
    ∀ limit : Int, 1 ≤ limit →
      ∃ r, admin_get_leads db skip limit sF srcF = Except.ok r := by
  constructor
  · unfold admin_get_leads get_leads
    have hmin : (min (0 : Int) 100) = 0 := min_eq_left (by norm_num)
    rw [hmin, if_neg (by omega), if_pos rfl]
  · intro limit hlim
    have hmin : (1 : Int) ≤ min limit 100 := le_min hlim (by norm_num)
    refine ⟨getLeadsCore db skip.toNat (min limit 100).toNat sF srcF, ?_⟩
    unfold admin_get_leads get_leads
    rw [if_neg (by omega), if_neg (by omega)]

/-- C10 witness: the empty store, `skip = 0`: `limit = 0` raises the
division error and `limit = 1` succeeds. -/
theorem c10_witness :
    admin_get_leads [] 0 0 none none = Except.error PyError.zeroDivision ∧
    ∃ r, admin_get_leads [] 0 1 none none = Except.ok r :=
  ⟨(c10_limit_zero_reaches_division_error [] none none 0 (by norm_num)).1,
   (c10_limit_zero_reaches_division_error [] none none 0 (by norm_num)).2 1 (by norm_num)⟩

/-! ## C6: no-op admin update -/

/-- C6: on an existing lead, an empty partial payload returns the
"No changes to update" success and leaves the store — `updated_at`
included — entirely untouched; a payload with at least one field returns
the update success and refreshes the matched lead's `updated_at`. -/
theorem c6_empty_update_is_noop (db : List Lead) (lead_id : String) (u : LeadUpdate)
    (now : Nat) (lead : Lead) (h : getLeadById db lead_id = some lead) :
    (u.isEmpty = true →
      update_lead db lead_id u now = (Except.ok ⟨true, "No changes to update"⟩, db)) ∧
    (u.isEmpty = false →
      (update_lead db lead_id u now).1 = Except.ok ⟨true, "Lead updated successfully"⟩ ∧
      ∃ l, getLeadById (update_lead db lead_id u now).2 lead_id = some l ∧
        l.updated_at = now) := by
  have hid : lead.id = lead_id := by
    have := List.find?_some h
    simpa using this
  constructor
  · intro he
    unfold update_lead
    rw [h, if_pos he]
  · intro he
    unfold update_lead
    rw [h, if_neg (by simp [he])]
    refine ⟨rfl, applyLeadUpdate u now lead, ?_, rfl⟩
    unfold getLeadById at h ⊢
    rw [List.find?_map]
    have hp : ((fun l : Lead => decide (l.id = lead_id)) ∘
        (fun l : Lead => if l.id = lead_id then applyLeadUpdate u now l else l)) =
        fun l : Lead => decide (l.id = lead_id) := by
      funext l
      by_cases hl : l.id = lead_id
      · simp [hl, applyLeadUpdate]
      · simp [hl]
    rw [hp, h]
    simp [hid]

/-- A concrete stored lead for the C6 witness. -/
def c6Lead : Lead :=
  { id := "L1", name := "Ada Lovelace", email := "ada@example.com",
    phone := "+12025550101", created_at := 1, updated_at := 1 }

/-- C6 witness: with the one-row store, the empty payload is a no-op with
the "No changes to update" message, and a one-field payload refreshes
`updated_at`. -/
theorem c6_witness :
    (update_lead [c6Lead] "L1" {} 5 =
      (Except.ok ⟨true, "No changes to update"⟩, [c6Lead])) ∧
    ((update_lead [c6Lead] "L1" { status := some LeadStatus.qualified } 5).1 =
        Except.ok ⟨true, "Lead updated successfully"⟩ ∧
      ∃ l, getLeadById
          (update_lead [c6Lead] "L1" { status := some LeadStatus.qualified } 5).2 "L1" =
          some l ∧ l.updated_at = 5) :=
  ⟨(c6_empty_update_is_noop [c6Lead] "L1" {} 5 c6Lead (by decide)).1 rfl,
   (c6_empty_update_is_noop [c6Lead] "L1" { status := some LeadStatus.qualified } 5 c6Lead
      (by decide)).2 rfl⟩

/-! ## C4: the honeypot gate -/

/-- C4: for every submission with a non-empty honeypot field, the intake
pipeline performs no persistence (the store is unchanged, no identifier is
issued) and no notification (no email send is attempted); and whenever the
body deserializes, the response is the generic 400 "Invalid request",
produced before any other processing. -/
theorem c4_honeypot_rejects_without_side_effects (emailOk : String → Bool)
    (db : List Lead) (raw : RawCVRequest) (ip ua newId : String) (now : Nat)
    (t : Except String Unit) (hweb : raw.website ≠ "") :
    ((handleRequestCV emailOk db raw ip ua newId now t).db = db ∧
     (handleRequestCV emailOk db raw ip ua newId now t).request_id = none ∧
     (handleRequestCV emailOk db raw ip ua newId now t).emailAttempted = false) ∧
    (∀ req, parseCVRequest emailOk raw = Except.ok req →
      handleRequestCV emailOk db raw ip ua newId now t =
        { status := 400, details := ["Invalid request"], db := db }) := by
  have hreject : ∀ req, parseCVRequest emailOk raw = Except.ok req →
      request_cv db req ip ua newId now t =
        { status := 400, details := ["Invalid request"], db := db } := by
    intro req hp
    have hw : req.website = raw.website := parseCVRequest_ok_website hp
    have hhp : validate_honeypot req.website = false := by
      simp [validate_honeypot, hw, hweb]
    unfold request_cv
    rw [if_pos hhp]
  constructor
  · unfold handleRequestCV
    cases hp : parseCVRequest emailOk raw with
    | error errs => exact ⟨rfl, rfl, rfl⟩
    | ok req =>
      simp only [hreject req hp]
      exact ⟨trivial, trivial, trivial⟩
  · intro req hp
    unfold handleRequestCV
    simp only [hp]
    exact hreject req hp

/-- A concrete submission with a filled honeypot field and otherwise valid
data. -/
def c4Raw : RawCVRequest :=
  { name := "John Smith", email := "john@x.com", phone := "+15550123456",
    consent := true, website := "http://spam.example" }

/-- C4 witness: the filled-honeypot submission leaves the store empty,
issues no identifier, attempts no email, and is answered with the generic
400 "Invalid request". -/
theorem c4_witness :
    ((handleRequestCV (fun _ => true) [] c4Raw "1.2.3.4" "agent" "rid-4" 0
        (Except.ok ())).db = [] ∧
     (handleRequestCV (fun _ => true) [] c4Raw "1.2.3.4" "agent" "rid-4" 0
        (Except.ok ())).request_id = none ∧
     (handleRequestCV (fun _ => true) [] c4Raw "1.2.3.4" "agent" "rid-4" 0
        (Except.ok ())).emailAttempted = false) ∧
    handleRequestCV (fun _ => true) [] c4Raw "1.2.3.4" "agent" "rid-4" 0 (Except.ok ()) =
      { status := 400, details := ["Invalid request"], db := [] } :=
  ⟨(c4_honeypot_rejects_without_side_effects (fun _ => true) [] c4Raw "1.2.3.4" "agent"
      "rid-4" 0 (Except.ok ()) (by decide)).1,
   (c4_honeypot_rejects_without_side_effects (fun _ => true) [] c4Raw "1.2.3.4" "agent"
      "rid-4" 0 (Except.ok ()) (by decide)).2
     { name := "John Smith", email := "john@x.com", phone := "+15550123456",
       consent := true, website := "http://spam.example" } rfl⟩

/-! ## C8: email failure is contained -/

/-- C8: the dispatcher's boundary catches every internal failure and
reflects it as the boolean result `false` (a successful body's boolean is
returned as is); and in the intake pipeline a failed email send neither
rolls back the already-persisted lead nor fails the overall request — the
response is still the 200 success carrying the generated identifier, with
the lead appended to the store. -/
theorem c8_email_failure_never_escapes :
    (∀ (t : Except String Unit) (e : String),
      sendEmailBody t = Except.error e → _send_email t = false) ∧
    (∀ (t : Except String Unit) (b : Bool),
      sendEmailBody t = Except.ok b → _send_email t = b) ∧
    (∀ (emailOk : String → Bool) (db : List Lead) (raw : RawCVRequest)
        (ip ua newId : String) (now : Nat) (e : String) (req : CVRequest),
      parseCVRequest emailOk raw = Except.ok req →
      validate_honeypot req.website = true →
      validate_request_data req = none →
      req.consent = true →
      handleRequestCV emailOk db raw ip ua newId now (Except.error e) =
        { status := 200,
          details := ["CV request processed successfully. You should receive the CV via email shortly."],
          db := db ++ [mkLead req newId ip ua now],
          request_id := some newId, emailAttempted := true, emailSent := false }) := by
  refine ⟨?_, ?_, ?_⟩
  · intro t e h
    unfold _send_email
    rw [h]
  · intro t b h
    unfold _send_email
    rw [h]
  · intro emailOk db raw ip ua newId now e req hp hhp hvd hc
    unfold handleRequestCV
    simp only [hp]
    unfold request_cv
    rw [if_neg (by simp [hhp])]
    simp only [hvd]
    rw [if_neg (by simp [hc])]
    rfl

/-- A concrete valid submission used to witness email-failure containment. -/
def c8Raw : RawCVRequest :=
  { name := "John Smith", email := "john@x.com", phone := "+15550123456",
    consent := true, website := "" }

/-- The parsed form of `c8Raw`. -/
def c8Req : CVRequest :=
  { name := "John Smith", email := "john@x.com", phone := "+15550123456",
    consent := true, website := "" }

/-- C8 witness: with an SMTP transport that fails, the dispatcher returns
`false` instead of raising, and the submission still gets its 200 response
with the lead persisted. -/
theorem c8_witness :
    _send_email (Except.error "connection refused") = false ∧
    _send_email (Except.ok ()) = true ∧
    handleRequestCV (fun _ => true) [] c8Raw "1.2.3.4" "agent" "rid-8" 11
        (Except.error "connection refused") =
      { status := 200,
        details := ["CV request processed successfully. You should receive the CV via email shortly."],
        db := [] ++ [mkLead c8Req "rid-8" "1.2.3.4" "agent" 11],
        request_id := some "rid-8", emailAttempted := true, emailSent := false } :=
  ⟨c8_email_failure_never_escapes.1 (Except.error "connection refused")
      "connection refused" rfl,
   c8_email_failure_never_escapes.2.1 (Except.ok ()) true rfl,
   c8_email_failure_never_escapes.2.2 (fun _ => true) [] c8Raw "1.2.3.4" "agent" "rid-8"
     11 "connection refused" c8Req rfl (by decide) (by decide) rfl⟩

/-! ## C5: the persisted phone field -/

/-- A concrete valid submission whose phone contains separators. -/
def c5Raw : RawCVRequest :=
  { name := "John Smith", email := "john@x.com", phone := "+1-555-0123-4567",
    consent := true, website := "" }

/-- C5 counterexample: the submission with phone `"+1-555-0123-4567"` is
accepted, but the persisted phone is the raw submitted string, hyphens and
all — it is not of the normalized shape "optional `+` then 10–15 digits"
that the claim asserts for every stored phone. -/
theorem c5_stored_phone_counterexample :
    (handleRequestCV (fun _ => true) [] c5Raw "1.2.3.4" "agent" "rid-5" 3
        (Except.ok ())).status = 200 ∧
    (getLeadById (handleRequestCV (fun _ => true) [] c5Raw "1.2.3.4" "agent" "rid-5" 3
        (Except.ok ())).db "rid-5").map Lead.phone = some "+1-555-0123-4567" ∧
    phoneRegexMatch "+1-555-0123-4567" = false := by
  decide

/-- C5 amended: the lead persisted by a successful intake stores the phone
exactly as submitted (after the schema's whitespace strip), not the
cleaned digit string; the normalization is applied only transiently inside
validation, so what is guaranteed of the stored value is that it passes
`validate_phone_format` (its cleaned form has 10–15 digits with an
optional leading `+`), not that it is itself in that shape. -/
theorem c5_stored_phone_amended (emailOk : String → Bool) (db : List Lead)
    (raw : RawCVRequest) (ip ua newId : String) (now : Nat) (t : Except String Unit)
    (req : CVRequest) (hp : parseCVRequest emailOk raw = Except.ok req)
    (hhp : validate_honeypot req.website = true)
    (hvd : validate_request_data req = none)
    (hc : req.consent = true) :
    (handleRequestCV emailOk db raw ip ua newId now t).db =
      db ++ [mkLead req newId ip ua now] ∧
    (mkLead req newId ip ua now).phone = pyStrip raw.phone ∧
    validate_phone_format (mkLead req newId ip ua now).phone = true := by
  refine ⟨?_, ?_, ?_⟩
  · unfold handleRequestCV
    simp only [hp]
    unfold request_cv
    rw [if_neg (by simp [hhp])]
    simp only [hvd]
    rw [if_neg (by simp [hc])]
  · show req.phone = pyStrip raw.phone
    rw [parseCVRequest_ok_fields hp]
  · exact validate_request_data_none_phone hvd

/-- The parsed form of `c5Raw`. -/
def c5Req : CVRequest :=
  { name := "John Smith", email := "john@x.com", phone := "+1-555-0123-4567",
    consent := true, website := "" }

/-- C5 witness: the amended statement at the concrete submission. -/
theorem c5_witness :
    (handleRequestCV (fun _ => true) [] c5Raw "1.2.3.4" "agent" "rid-5w" 3
        (Except.ok ())).db = [] ++ [mkLead c5Req "rid-5w" "1.2.3.4" "agent" 3] ∧
    (mkLead c5Req "rid-5w" "1.2.3.4" "agent" 3).phone = pyStrip c5Raw.phone ∧
    validate_phone_format (mkLead c5Req "rid-5w" "1.2.3.4" "agent" 3).phone = true :=
  c5_stored_phone_amended (fun _ => true) [] c5Raw "1.2.3.4" "agent" "rid-5w" 3
    (Except.ok ()) c5Req rfl (by decide) (by decide) rfl

/-! ## C2: consent refused at the schema boundary -/

/-- A submission identical to a valid payload except `consent = false`. -/
def c2Raw : RawCVRequest :=
  { name := "John Smith", email := "john@x.com", phone := "+15550123456",
    consent := false, website := "" }

/-- C2 counterexample: with `consent = false` and everything else valid,
the response is the web framework's 422 deserialization failure (the
schema's `validate_consent` raises before the handler runs), not a 400;
no lead is created; the identical payload with `consent = true` succeeds
with a 200. -/
theorem c2_consent_false_counterexample :
    (handleRequestCV (fun _ => true) [] c2Raw "1.2.3.4" "agent" "rid-2" 0
        (Except.ok ())).status = 422 ∧
    ¬ (handleRequestCV (fun _ => true) [] c2Raw "1.2.3.4" "agent" "rid-2" 0
        (Except.ok ())).status = 400 ∧
    (handleRequestCV (fun _ => true) [] c2Raw "1.2.3.4" "agent" "rid-2" 0
        (Except.ok ())).details = ["Consent is required"] ∧
    (handleRequestCV (fun _ => true) [] c2Raw "1.2.3.4" "agent" "rid-2" 0
        (Except.ok ())).db = [] ∧
    (handleRequestCV (fun _ => true) []
        { c2Raw with consent := true } "1.2.3.4" "agent" "rid-2" 0
        (Except.ok ())).status = 200 := by
  decide

/-- C2 amended: for every submission identical to a deserializable payload
except that `consent = false`, the pipeline answers with a 422 validation
error whose message is "Consent is required" (raised by the schema's
`validate_consent` before the handler runs), and no lead is created. -/
theorem c2_consent_false_is_422 (emailOk : String → Bool) (db : List Lead)
    (raw : RawCVRequest) (ip ua newId : String) (now : Nat) (t : Except String Unit)
    (req : CVRequest)
    (hok : parseCVRequest emailOk { raw with consent := true } = Except.ok req)
    (hc : raw.consent = false) :
    handleRequestCV emailOk db raw ip ua newId now t =
      { status := 422, details := ["Consent is required"], db := db } := by
  have hempty : nameFieldErrors raw.name = [] ∧ emailFieldErrors emailOk raw.email = [] ∧
      phoneFieldErrors raw.phone = [] ∧ purposeFieldErrors raw.purpose = [] := by
    simp only [parseCVRequest] at hok
    split_ifs at hok with he
    have he2 : nameFieldErrors raw.name ++ emailFieldErrors emailOk raw.email ++
        phoneFieldErrors raw.phone ++ purposeFieldErrors raw.purpose ++
        consentFieldErrors true = [] := he
    simp only [List.append_eq_nil] at he2
    exact ⟨he2.1.1.1.1, he2.1.1.1.2, he2.1.1.2, he2.1.2⟩
  have herr : nameFieldErrors raw.name ++ emailFieldErrors emailOk raw.email ++
      phoneFieldErrors raw.phone ++ purposeFieldErrors raw.purpose ++
      consentFieldErrors raw.consent = ["Consent is required"] := by
    rw [hempty.1, hempty.2.1, hempty.2.2.1, hempty.2.2.2, hc]
    rfl
  unfold handleRequestCV parseCVRequest
  simp only [herr]
  rw [if_neg (by simp)]

/-- C2 witness: the amended statement at the concrete payload. -/
theorem c2_witness :
    handleRequestCV (fun _ => true) [] c2Raw "1.2.3.4" "agent" "rid-2w" 0 (Except.ok ()) =
      { status := 422, details := ["Consent is required"], db := [] } :=
  c2_consent_false_is_422 (fun _ => true) [] c2Raw "1.2.3.4" "agent" "rid-2w" 0
    (Except.ok ())
    { name := "John Smith", email := "john@x.com", phone := "+15550123456",
      consent := true, website := "" }
    rfl rfl

/-! ## C1: the order of the intake checks -/

/-- A submission violating both the consent rule and the spam scan while
passing every earlier check. -/
def c1Req : CVRequest :=
  { name := "John Doe", email := "john@example.com", phone := "+15550123456",
    purpose := some "javascript:alert(1)", consent := false, website := "" }

/-- C1 counterexample: on a request that violates both the consent rule
and the spam scan, the in-handler validation sequence reports the
spam-scan failure "Invalid characters detected", not the consent failure —
the consent check runs after `validate_request_data`, not before its spam
scan. -/
theorem c1_consent_after_spam_counterexample :
    c1Req.consent = false ∧
    spamScan (allText c1Req) = true ∧
    intakeValidation c1Req = some "Invalid characters detected" ∧
    intakeValidation c1Req ≠ some "Consent is required" := by
  decide

/-- C1 amended: the handler's validation applies its rules in the fixed
order honeypot, name, email, phone, purpose, cross-field spam scan,
consent — failing fast on the first violated rule (the sequence equals the
first failing entry of the ordered check list); in particular, a parsed
submission that violates both the consent rule and the spam scan, and
nothing earlier, is reported with the spam-scan failure, because the spam
scan (inside `validate_request_data`) runs before the handler's consent
check. (The schema layer separately rejects `consent = false` at
deserialization time, before this sequence can run.) -/
theorem c1_intake_order_amended :
    (∀ req : CVRequest, intakeValidation req = firstFailure req) ∧
    (∀ req : CVRequest,
      validate_honeypot req.website = true →
      ¬ (req.name = "" ∨ (pyStrip req.name).length < 2) →
      req.email ≠ "" →
      validate_email_format req.email = true →
      req.phone ≠ "" →
      validate_phone_format req.phone = true →
      ¬ (500 < (req.purpose.getD "").length) →
      spamScan (allText req) = true →
      req.consent = false →
      intakeValidation req = some "Invalid characters detected") := by
  constructor
  · intro req
    simp only [firstFailure, intakeChecks, List.filterMap_cons, List.filterMap_nil]
    simp only [intakeValidation, validate_request_data]
    by_cases h1 : validate_honeypot req.website = false
    · simp only [if_pos h1, List.head?_cons]
    · simp only [if_neg h1]
      by_cases h2 : req.name = "" ∨ (pyStrip req.name).length < 2
      · simp only [if_pos h2, List.head?_cons]
      · simp only [if_neg h2]
        by_cases h3 : req.email = ""
        · simp only [if_pos h3, List.head?_cons]
        · simp only [if_neg h3]
          by_cases h4 : validate_email_format req.email = false
          · simp only [if_pos h4, List.head?_cons]
          · simp only [if_neg h4]
            by_cases h5 : req.phone = ""
            · simp only [if_pos h5, List.head?_cons]
            · simp only [if_neg h5]
              by_cases h6 : validate_phone_format req.phone = false
              · simp only [if_pos h6, List.head?_cons]
              · simp only [if_neg h6]
                by_cases h7 : 500 < (req.purpose.getD "").length
                · simp only [if_pos h7, List.head?_cons]
                · simp only [if_neg h7]
                  by_cases h8 : spamScan (allText req) = true
                  · simp only [if_pos h8, List.head?_cons]
                  · simp only [if_neg h8]
                    by_cases h9 : req.consent = false
                    · simp only [if_pos h9, List.head?_cons]
                    · simp only [if_neg h9, List.head?_nil]
  · intro req hhp hn he hef hph hpf hpu hs hc
    unfold intakeValidation validate_request_data
    rw [if_neg (by simp [hhp]), if_neg hn, if_neg he, if_neg (by simp [hef]),
      if_neg hph, if_neg (by simp [hpf]), if_neg hpu, if_pos hs]

/-- C1 witness: the amended statement at the concrete dual-violation
request. -/
theorem c1_witness :
    intakeValidation c1Req = firstFailure c1Req ∧
    intakeValidation c1Req = some "Invalid characters detected" :=
  ⟨c1_intake_order_amended.1 c1Req,
   c1_intake_order_amended.2 c1Req (by decide) (by decide) (by decide) (by decide)
     (by decide) (by decide) (by decide) (by decide) rfl⟩

/-! ## C7: listing pagination -/

/-- Ceiling property of the `(T + L - 1) / L` page count: `pages * L` is
the least multiple of `L` covering `T`. -/
theorem pagesCeil (T L : Nat) (hL : 0 < L) :
    T ≤ ((T + L - 1) / L) * L ∧ ((T + L - 1) / L) * L < T + L := by
  obtain ⟨l', rfl⟩ : ∃ l', L = l' + 1 := ⟨L - 1, by omega⟩
  have he : T + (l' + 1) - 1 = T + l' := by omega
  rw [he]
  have hd := Nat.div_add_mod (T + l') (l' + 1)
  have hm : (T + l') % (l' + 1) < l' + 1 := Nat.mod_lt _ (by omega)
  constructor
  · nlinarith [hd, hm, Nat.zero_le ((T + l') % (l' + 1))]
  · nlinarith [hd, hm, Nat.zero_le ((T + l') % (l' + 1))]

/-- Concatenating the `(length + L - 1) / L` successive `LIMIT L OFFSET
i * L` slices of a list reassembles the list exactly. -/
theorem joinChunks {α : Type _} (L : Nat) (hL : 0 < L) :
    ∀ (n : Nat) (l : List α), l.length = n →
      (List.range ((l.length + L - 1) / L)).flatMap (fun i => (l.drop (i * L)).take L) = l := by
  intro n
  induction n using Nat.strong_induction_on with
  | _ n ih =>
    intro l hlen
    cases l with
    | nil =>
      have h0 : (([] : List α).length + L - 1) / L = 0 := by
        simp only [List.length_nil, Nat.zero_add]
        exact Nat.div_eq_of_lt (by omega)
      rw [h0]
      rfl
    | cons a as =>
      have hlen1 : 1 ≤ (a :: as).length := by simp
      have hpages : ((a :: as).length + L - 1) / L = ((a :: as).length - 1) / L + 1 := by
        have h1 : (a :: as).length + L - 1 = ((a :: as).length - 1) + L := by omega
        rw [h1, Nat.add_div_right _ hL]
      rw [hpages, List.range_succ_eq_map, List.flatMap_cons, List.flatMap_map]
      have hz : ((a :: as).drop (0 * L)).take L = (a :: as).take L := by
        rw [Nat.zero_mul, List.drop_zero]
      have hshift : (fun i => ((a :: as).drop (Nat.succ i * L)).take L) =
          (fun i => (((a :: as).drop L).drop (i * L)).take L) := by
        funext i
        rw [List.drop_drop]
        conv_lhs => rw [Nat.succ_mul, Nat.add_comm (i * L) L]
      rw [hz]
      have hlt : ((a :: as).drop L).length < n := by
        rw [List.length_drop]
        omega
      have hm : (((a :: as).drop L).length + L - 1) / L = ((a :: as).length - 1) / L := by
        rw [List.length_drop]
        rcases Nat.le_total L (a :: as).length with hcase | hcase
        · congr 1
          omega
        · have e1 : (a :: as).length - L = 0 := by omega
          rw [e1]
          have e2 : (0 + L - 1) / L = 0 := Nat.div_eq_of_lt (by omega)
          rw [e2]
          exact (Nat.div_eq_of_lt (by omega)).symm
      have ihe := ih ((a :: as).drop L).length hlt ((a :: as).drop L) rfl
      rw [hm] at ihe
      calc (a :: as).take L ++
            (List.range (((a :: as).length - 1) / L)).flatMap
              (fun i => ((a :: as).drop (Nat.succ i * L)).take L)
          = (a :: as).take L ++
            (List.range (((a :: as).length - 1) / L)).flatMap
              (fun i => (((a :: as).drop L).drop (i * L)).take L) := by rw [hshift]
        _ = (a :: as).take L ++ (a :: as).drop L := by rw [ihe]
        _ = a :: as := List.take_append_drop L (a :: as)

/-- C7: for the admin listing with any requested limit ≥ 1 and skip ≥ 0,
the effective page size is `min(limit, 100)` (so never above 100), the
returned rows are ordered by `created_at` descending, the page count is
`(total + L - 1) / L` — the ceiling of `total / L`, as the two bounding
inequalities state — and concatenating the pages for `skip = 0, L, 2·L, …`
in order reassembles exactly the filtered rows sorted newest-first: no
duplicates, no omissions. -/
theorem c7_pagination_invariant (db : List Lead) (sF : Option LeadStatus)
    (srcF : Option LeadSource) (skip limit : Int) (hskip : 0 ≤ skip) (hlim : 1 ≤ limit) :
    ∃ r, admin_get_leads db skip limit sF srcF = Except.ok r ∧
      r = getLeadsCore db skip.toNat (min limit 100).toNat sF srcF ∧
      r.size ≤ 100 ∧
      List.Sorted createdDescRel r.leads ∧
      r.pages = (r.total + r.size - 1) / r.size ∧
      (r.total ≤ r.pages * r.size ∧ r.pages * r.size < r.total + r.size) ∧
      (List.range r.pages).flatMap
          (fun i => (getLeadsCore db (i * r.size) r.size sF srcF).leads) =
        filteredSorted db sF srcF := by
  have hL1 : (1 : Int) ≤ min limit 100 := le_min hlim (by norm_num)
  have hub : min limit 100 ≤ (100 : Int) := min_le_right _ _
  have hLpos : 0 < (min limit 100).toNat := by omega
  refine ⟨getLeadsCore db skip.toNat (min limit 100).toNat sF srcF,
    ?_, rfl, ?_, ?_, rfl, ?_, ?_⟩
  · unfold admin_get_leads get_leads
    rw [if_neg (by omega), if_neg (by omega)]
  · show (min limit 100).toNat ≤ 100
    omega
  · show List.Sorted createdDescRel
      (((filteredSorted db sF srcF).drop skip.toNat).take (min limit 100).toNat)
    exact List.Pairwise.sublist
      ((List.take_sublist _ _).trans (List.drop_sublist _ _))
      (List.sorted_insertionSort createdDescRel _)
  · exact pagesCeil (filteredSorted db sF srcF).length (min limit 100).toNat hLpos
  · exact joinChunks (min limit 100).toNat hLpos (filteredSorted db sF srcF).length
      (filteredSorted db sF srcF) rfl

/-- A three-row store for the C7 witness. -/
def c7Db : List Lead :=
  [{ id := "a", name := "A A", email := "a@x.co", phone := "+12025550111",
     created_at := 5, updated_at := 5 },
   { id := "b", name := "B B", email := "b@x.co", phone := "+12025550112",
     created_at := 9, updated_at := 9 },
   { id := "c", name := "C C", email := "c@x.co", phone := "+12025550113",
     created_at := 1, updated_at := 1 }]

/-- C7 witness: the pagination invariant at the three-row store with
`skip = 0` and requested limit 2. -/
theorem c7_witness :
    ∃ r, admin_get_leads c7Db 0 2 none none = Except.ok r ∧
      r = getLeadsCore c7Db (0 : Int).toNat (min (2 : Int) 100).toNat none none ∧
      r.size ≤ 100 ∧
      List.Sorted createdDescRel r.leads ∧
      r.pages = (r.total + r.size - 1) / r.size ∧
      (r.total ≤ r.pages * r.size ∧ r.pages * r.size < r.total + r.size) ∧
      (List.range r.pages).flatMap
          (fun i => (getLeadsCore c7Db (i * r.size) r.size none none).leads) =
        filteredSorted c7Db none none :=
  c7_pagination_invariant c7Db none none 0 2 (by norm_num) (by norm_num)
